import Mathlib

/-!
Verification of the redis-status-board orchestration core.

The definitions below are a shallow embedding of `src/server.js` and
`src/redis-dal.js`.  The Redis backing store is modelled as an association
list from keys to hashes (a hash being an association list from field names
to string values); `HSET` merges the written fields into the existing hash.
External collaborators (the embedding model, the vector index, the spatial
index) are black boxes per the specification and are modelled as environment
records of functions.  JavaScript truthiness, `String(v)` coercion and the
`x || d` defaulting idiom are translated explicitly where they occur.
-/

namespace StatusBoard

/-- A Redis hash: field name to string value, first binding wins on lookup. -/
abbrev Hash := List (String × String)

/-- The backing store: key to hash, first binding wins on lookup. -/
abbrev Store := List (String × Hash)

/-- Field lookup in a hash (Redis `HGET` semantics on our representation). -/
def hashGet (h : Hash) (field : String) : Option String :=
  (h.find? fun p => p.1 == field).map Prod.snd

/-- Key lookup in the store. -/
def storeFind (store : Store) (key : String) : Option Hash :=
  (store.find? fun e => e.1 == key).map Prod.snd

/-- Redis `HSET` field-map semantics: the newly written fields override the
old bindings, every other existing field of the hash is retained. -/
def mergeHash (old new : Hash) : Hash :=
  new ++ old.filter fun p => ((new.find? fun q => q.1 == p.1).isNone)

/-- Write a field map to a key: merge into the existing hash, or create. -/
def storeHset (store : Store) (key : String) (value : Hash) : Store :=
  (key, mergeHash ((storeFind store key).getD []) value) ::
    store.filter fun e => e.1 != key

/-- JavaScript `v || d` on an optional string field (absent or empty gives
the default). -/
def jsOr (v : Option String) (d : String) : String :=
  match v with
  | some s => if s = "" then d else s
  | none => d

/-- JavaScript whitespace characters recognised by `String.prototype.trim`
(the ASCII ones; the source never stores exotic Unicode whitespace). -/
def isJsWhitespace (c : Char) : Bool :=
  c = ' ' || c = '\t' || c = '\n' || c = '\r' || c = '\x0b' || c = '\x0c'

/-- JavaScript `String.prototype.trim`. -/
def jsTrim (s : String) : String :=
  String.mk (((s.data.dropWhile isJsWhitespace).reverse.dropWhile
    isJsWhitespace).reverse)

/-- Split a character list on `:` (JavaScript `key.split(':')`). -/
def splitCh : List Char → List (List Char)
  | [] => [[]]
  | c :: rest =>
    if c = ':' then [] :: splitCh rest
    else
      match splitCh rest with
      | s :: ss => (c :: s) :: ss
      | [] => [[c]]

/-- Rejoin segments with `:` (JavaScript `parts.join(':')`). -/
def joinColon : List (List Char) → List Char
  | [] => []
  | [s] => s
  | s :: ss => s ++ ':' :: joinColon ss

/-- `src/server.js getAllUsers` / guide solution: username is the stored key
with its first two colon-separated segments removed,
`key.split(':').slice(2).join(':')`. -/
def usernameOfKey (key : String) : String :=
  String.mk (joinColon ((splitCh key.data).drop 2))

/-- Redis `SCAN MATCH` glob for the patterns the source uses (a literal
prefix followed by a trailing `*`, else exact match). -/
def matchesGlob (key pat : String) : Bool :=
  match pat.data.reverse with
  | '*' :: rest => rest.reverse.isPrefixOf key.data
  | _ => pat == key

/-- JavaScript truthiness of an optional numeric field
(`undefined` and `0` are falsy). -/
def jsTruthyNum (v : Option Rat) : Bool :=
  match v with
  | some q => if q = 0 then false else true
  | none => false

/-!  External collaborators.  Per spec §6 the embedding model and the
RediSearch vector index are black boxes; they are modelled as an environment
of functions, together with the failure behaviour of the backing store's
write and per-key read commands. -/

/-- `doc.value` of a vector-search document: the source reads its `name`
field (`bestMatch.value.name` in `searchBestIcon`). -/
structure SearchDocValue where
  name : String
  deriving DecidableEq

/-- One document returned by `FT.SEARCH`. -/
structure SearchDoc where
  value : SearchDocValue
  deriving DecidableEq

/-- The result shape of `client.ft.search` as used by `redis-dal.js`
`vectorSearch`: a `total` count and the returned `documents`. -/
structure SearchResults where
  total : Nat
  documents : List SearchDoc
  deriving DecidableEq

/-- Environment of external effects: the embedding model
(`generateEmbedding`, spec §4.2, consumed as an opaque text-to-vector
function that may fail to load), the vector index (`client.ft.search`,
which may fail or return no candidates), and the backing store's failure
behaviour for `HSET` and per-key `HGETALL`. -/
structure Env where
  embed : String → Except String (List Rat)
  ftSearch : String → List Rat → Except String SearchResults
  writeFails : Bool
  readFails : String → Bool

/-- `src/server.js generateEmbedding`: delegates to the (black-box)
model; errors propagate (model-load failure). -/
def generateEmbedding (env : Env) (text : String) : Except String (List Rat) :=
  env.embed text

/-- `src/redis-dal.js vectorSearch`: builds the KNN query and delegates to
`client.ft.search` with `k = 1`; errors are logged and rethrown. -/
def vectorSearch (env : Env) (indexName : String) (embedding : List Rat) :
    Except String SearchResults :=
  env.ftSearch indexName embedding

/-- `src/redis-dal.js setHash`: stringifies the field values (identity here,
all our values are already strings) and issues `HSET`; on error the
exception is logged and rethrown. -/
def setHash (env : Env) (store : Store) (key : String) (value : Hash) :
    Except String Store :=
  if env.writeFails then Except.error "setHash failed"
  else Except.ok (storeHset store key value)

/-- `src/redis-dal.js getHash`: `HGETALL`, returning `null` when the hash
has no fields (absent key). -/
def getHash (store : Store) (key : String) : Option Hash :=
  match storeFind store key with
  | some h => if h.isEmpty then none else some h
  | none => none

/-- `src/redis-dal.js scanKeys`: enumerate the keys matching the pattern and
read each hash with `getHash(client, key).catch(() => null)` — a per-key
read failure yields `null` for that key, never an error. -/
def scanKeys (env : Env) (store : Store) (pat : String) :
    List (String × Option Hash) :=
  (store.filter fun e => matchesGlob e.1 pat).map fun e =>
    (e.1, if env.readFails e.1 then none else getHash store e.1)

/-- `src/server.js extractPrefix`: strip a leading `redisboard-` from the
connecting username (a regex replace anchored at the start). -/
def extractPrefix (username : String) : String :=
  if "redisboard-".data.isPrefixOf username.data then
    String.mk (username.data.drop 11)
  else username

/-- `src/server.js getStatusText`. -/
def getStatusText (status : String) : String :=
  if status = "red" then "Busy"
  else if status = "green" then "Available"
  else if status = "purple" then "Away"
  else "Unknown"

/-- `src/server.js getUserKey`: key pattern `status:{prefix}:{username}`. -/
def getUserKey (username pfx : String) : String :=
  "status:" ++ pfx ++ ":" ++ username

/-- An element of the directory listing produced by `getAllUsers`. -/
structure UserView where
  username : String
  status : String
  message : String
  icon : String
  deriving DecidableEq

/-- `src/server.js getAllUsers`: scan `status:*`, parse the username from
each key (first two segments dropped) and default missing data with
`data.status || 'green'`, `data.message || ''`, `data.icon || 'circle'`. -/
def getAllUsers (env : Env) (store : Store) : List UserView :=
  (scanKeys env store "status:*").map fun item =>
    let data := item.2.getD []
    { username := usernameOfKey item.1
      status := jsOr (hashGet data "status") "green"
      message := (hashGet data "message").getD ""
      icon := jsOr (hashGet data "icon") "circle" }

/-- `src/server.js searchBestIcon`, body of the `try` block, paired with the
number of embedding invocations it performs: empty or whitespace-only
messages return the default icon before any embedding call; otherwise the
message is embedded, the tenant index `{prefix}_lucide_icon_index` is
queried for one nearest neighbour, and a hit returns its `name`. -/
def searchBestIconTry (env : Env) (statusMessage pfx : String) :
    Except String String × Nat :=
  if statusMessage = "" ∨ jsTrim statusMessage = "" then (Except.ok "circle", 0)
  else
    match generateEmbedding env statusMessage with
    | Except.error e => (Except.error e, 1)
    | Except.ok embedding =>
      match vectorSearch env (pfx ++ "_lucide_icon_index") embedding with
      | Except.error e => (Except.error e, 1)
      | Except.ok searchResults =>
        match searchResults.documents with
        | bestMatch :: _ =>
          if searchResults.total > 0 then (Except.ok bestMatch.value.name, 1)
          else (Except.ok "circle", 1)
        | [] => (Except.ok "circle", 1)

/-- `src/server.js searchBestIcon`: the surrounding `catch` downgrades every
error to the default icon, so the function never raises to its caller. -/
def searchBestIcon (env : Env) (statusMessage pfx : String) : String × Nat :=
  match searchBestIconTry env statusMessage pfx with
  | (Except.ok icon, n) => (icon, n)
  | (Except.error _, n) => ("circle", n)

/-- The `statusData` argument of `updateUserStatus`. -/
structure StatusData where
  status : String
  message : Option String
  longitude : Option Rat
  latitude : Option Rat

/-- Result of `updateUserStatus`: the store write outcome, the key and the
field map passed to `setHash` (the source returns `{ key, value }`), and the
number of embedding invocations performed. -/
structure UpdateOutcome where
  result : Except String Store
  key : String
  value : Hash
  embedCalls : Nat

/-- `src/server.js updateUserStatus`: resolve an icon only for a non-empty,
non-whitespace message; build the field map with `status`, `message`
(defaulted to `''`), `icon`, and — only when both coordinates are present —
`location = POINT(<longitude> <latitude>)` (longitude first); then `HSET`
it.  `parseFloat` on an already-numeric coordinate is the identity and the
template interpolation renders the number. -/
def updateUserStatus (env : Env) (store : Store) (username pfx : String)
    (statusData : StatusData) : UpdateOutcome :=
  let key := getUserKey username pfx
  let msg := statusData.message.getD ""
  let iconPair :=
    if msg ≠ "" ∧ jsTrim msg ≠ "" then searchBestIcon env msg pfx
    else ("circle", 0)
  let baseValue : Hash :=
    [("status", statusData.status), ("message", msg), ("icon", iconPair.1)]
  let value : Hash :=
    match statusData.longitude, statusData.latitude with
    | some lon, some lat =>
      baseValue ++
        [("location", "POINT(" ++ toString lon ++ " " ++ toString lat ++ ")")]
    | _, _ => baseValue
  { result := setHash env store key value
    key := key
    value := value
    embedCalls := iconPair.2 }

/-- Body of a `POST /api/update-status` request (absent JSON members are
`none`; coordinates arrive as JSON numbers). -/
structure UpdateRequest where
  myUsername : Option String
  status : Option String
  message : Option String
  longitude : Option Rat
  latitude : Option Rat

/-- Observable outcome of the `POST /api/update-status` handler: the
response flag and error, the store after the request, the broadcast
messages published (Redis pub/sub and SSE carry the same string), the field
map passed to the persistence write (if one was attempted), and the number
of embedding invocations. -/
structure HandlerResult where
  ok : Bool
  error : Option String
  store : Store
  published : List String
  written : Option Hash
  embedCalls : Nat

/-- The allowed status enum of the route handler. -/
def allowedStatuses : List String := ["red", "green", "purple"]

/-- `src/server.js app.post('/api/update-status')`: validate identity and
status enum (rejecting before any side effect), build `statusData` with the
coordinates only when both are present, run `updateUserStatus`, and on
success publish the human-readable description — the location template when
both coordinates were supplied, else the status/message template. -/
def updateStatusHandler (env : Env) (store : Store) (username : String)
    (req : UpdateRequest) : HandlerResult :=
  if req.myUsername.getD "" = "" ∨ req.status.getD "" = "" then
    { ok := false, error := some "Missing myUsername or status"
      store := store, published := [], written := none, embedCalls := 0 }
  else if (req.status.getD "") ∉ allowedStatuses then
    { ok := false, error := some "Invalid status value"
      store := store, published := [], written := none, embedCalls := 0 }
  else
    let status := req.status.getD ""
    let myUsername := req.myUsername.getD ""
    let pfx := extractPrefix username
    let statusData : StatusData :=
      match req.longitude, req.latitude with
      | some lon, some lat =>
        { status := status, message := some (req.message.getD "")
          longitude := some lon, latitude := some lat }
      | _, _ =>
        { status := status, message := some (req.message.getD "")
          longitude := none, latitude := none }
    let outcome := updateUserStatus env store myUsername pfx statusData
    match outcome.result with
    | Except.error e =>
      { ok := false, error := some e, store := store, published := []
        written := some outcome.value, embedCalls := outcome.embedCalls }
    | Except.ok store' =>
      let updateMessage :=
        if req.longitude.isSome ∧ req.latitude.isSome then
          "User " ++ myUsername ++ " location updated"
        else if req.message.getD "" ≠ "" then
          "User " ++ myUsername ++ " status is " ++ getStatusText status ++
            ": " ++ req.message.getD ""
        else
          "User " ++ myUsername ++ " status is " ++ getStatusText status
      { ok := true, error := none, store := store'
        published := [updateMessage], written := some outcome.value
        embedCalls := outcome.embedCalls }

/-- Environment for the spatial query: the static boundary polygon and the
store's native shape-query engine are black boxes (spec §4.4, §6), exposed
as: does the tenant spatial index exist, is a stored point literal within
the boundary, and the coordinates extracted from a stored point literal. -/
structure GeoEnv where
  indexExists : String → Bool
  withinBoundary : String → Bool
  pointCoords : String → Option (Rat × Rat)

/-- A record returned by the spatial query (guide solution shape). -/
structure MapRecord where
  username : String
  status : String
  message : String
  icon : String
  longitude : Option Rat
  latitude : Option Rat
  deriving DecidableEq

/-- Modelled from the spec: `searchStatusesWithLocation` is called by
`getUsersOnMap` in `src/server.js` but is absent from `src/redis-dal.js`.
Following spec §4.4 and the reference solution `getStatusesWithLocation` in
`src/guide.md`: when the tenant's spatial index does not exist the query
fails with a `no such index` error; otherwise it returns, for every indexed
status hash whose `location` field lies within the static boundary polygon,
a record with the username parsed from the key (first two segments
dropped), the scalar fields defaulted as in the listing, and
longitude/latitude extracted from the stored point literal.  Records
without a `location` field are excluded, not errors. -/
def searchStatusesWithLocation (geo : GeoEnv) (store : Store)
    (indexName : String) : Except String (List MapRecord) :=
  if geo.indexExists indexName then
    Except.ok ((store.filter fun e =>
        matchesGlob e.1 "status:*" &&
          (match hashGet e.2 "location" with
           | some loc => geo.withinBoundary loc
           | none => false)).map fun e =>
      { username := usernameOfKey e.1
        status := jsOr (hashGet e.2 "status") "green"
        message := (hashGet e.2 "message").getD ""
        icon := jsOr (hashGet e.2 "icon") "circle"
        longitude := ((hashGet e.2 "location").bind geo.pointCoords).map Prod.fst
        latitude := ((hashGet e.2 "location").bind geo.pointCoords).map Prod.snd })
  else Except.error (indexName ++ ": no such index")

/-- Substring test (`err.message.includes('no such index')`). -/
def containsSubstr (s sub : String) : Bool :=
  go sub.data s.data
where
  go (needle : List Char) : List Char → Bool
    | [] => needle.isPrefixOf []
    | c :: rest => needle.isPrefixOf (c :: rest) || go needle rest

/-- `src/server.js getUsersOnMap`: run the spatial query on `status_index`,
keep the records with (truthy) coordinates, and treat a `no such index`
error as zero results; any other error propagates. -/
def getUsersOnMap (geo : GeoEnv) (store : Store) :
    Except String (List MapRecord) :=
  match searchStatusesWithLocation geo store "status_index" with
  | Except.ok statuses =>
    Except.ok (statuses.filter fun s =>
      jsTruthyNum s.longitude && jsTruthyNum s.latitude)
  | Except.error e =>
    if containsSubstr e "no such index" then Except.ok [] else Except.error e

/-- A concrete environment used by counterexample scenarios: embedding
succeeds, the vector index returns no candidates, the store never fails. -/
def sampleEnv : Env :=
  { embed := fun _ => Except.ok [1]
    ftSearch := fun _ _ => Except.ok { total := 0, documents := [] }
    writeFails := false
    readFails := fun _ => false }

/-- A concrete spatial environment: the index exists, every stored point
literal lies within the boundary, extraction yields `(34, 32)`. -/
def sampleGeo : GeoEnv :=
  { indexExists := fun _ => true
    withinBoundary := fun _ => true
    pointCoords := fun _ => some (34, 32) }

/-- Store after a first accepted write for `redisboard-a` that supplied a
location `(34, 32)`. -/
def c1PriorStore : Store :=
  (updateStatusHandler sampleEnv [] "redisboard-a"
    { myUsername := some "redisboard-a", status := some "green"
      message := none, longitude := some 34, latitude := some 32 }).store

/-- Store after a second accepted write for the same user that supplied
only status and message (no location). -/
def c1AfterStore : Store :=
  (updateStatusHandler sampleEnv c1PriorStore "redisboard-a"
    { myUsername := some "redisboard-a", status := some "red"
      message := none, longitude := none, latitude := none }).store

/-!  Supporting lemmas about the store model. -/

lemma find?_filter_unmerged (old new : Hash) (f : String)
    (h : new.find? (fun q => q.1 == f) = none) :
    (old.filter fun p => ((new.find? fun q => q.1 == p.1).isNone)).find?
        (fun p => p.1 == f) = old.find? (fun p => p.1 == f) := by
  induction old with
  | nil => rfl
  | cons p old ih =>
    by_cases hpf : p.1 = f
    · rw [List.filter_cons, if_pos (by rw [hpf, h]; rfl)]
      rw [List.find?_cons_of_pos _ (by simp [hpf]),
        List.find?_cons_of_pos _ (by simp [hpf])]
    · rw [List.filter_cons]
      by_cases hkeep : ((new.find? fun q => q.1 == p.1).isNone) = true
      · rw [if_pos hkeep, List.find?_cons_of_neg _ (by simp [hpf]),
          List.find?_cons_of_neg _ (by simp [hpf]), ih]
      · rw [if_neg hkeep, List.find?_cons_of_neg _ (by simp [hpf]), ih]

lemma hashGet_mergeHash (old new : Hash) (f : String) :
    hashGet (mergeHash old new) f =
      match hashGet new f with
      | some v => some v
      | none => hashGet old f := by
  unfold hashGet mergeHash
  rw [List.find?_append]
  cases hfind : new.find? (fun p => p.1 == f) with
  | some p => simp
  | none => simp [find?_filter_unmerged old new f hfind]

lemma hashGet_mergeHash_some {new : Hash} {f : String} {v : String} (old : Hash)
    (h : hashGet new f = some v) : hashGet (mergeHash old new) f = some v := by
  rw [hashGet_mergeHash, h]

lemma hashGet_mergeHash_none {new : Hash} {f : String} (old : Hash)
    (h : hashGet new f = none) :
    hashGet (mergeHash old new) f = hashGet old f := by
  rw [hashGet_mergeHash, h]

lemma storeFind_storeHset_self (s : Store) (k : String) (v : Hash) :
    storeFind (storeHset s k v) k =
      some (mergeHash ((storeFind s k).getD []) v) := by
  unfold storeFind storeHset
  rw [List.find?_cons_of_pos _ (by simp)]
  rfl

lemma find?_filter_ne (s : Store) (k k' : String) (h : k' ≠ k) :
    (s.filter fun e => e.1 != k).find? (fun e => e.1 == k') =
      s.find? (fun e => e.1 == k') := by
  induction s with
  | nil => rfl
  | cons e s ih =>
    by_cases hek : e.1 = k'
    · rw [List.filter_cons, if_pos (by simp [hek, h]),
        List.find?_cons_of_pos _ (by simp [hek]),
        List.find?_cons_of_pos _ (by simp [hek])]
    · rw [List.filter_cons]
      by_cases hkeep : (e.1 != k) = true
      · rw [if_pos hkeep, List.find?_cons_of_neg _ (by simp [hek]),
          List.find?_cons_of_neg _ (by simp [hek]), ih]
      · rw [if_neg hkeep, List.find?_cons_of_neg _ (by simp [hek]), ih]

lemma storeFind_storeHset_ne (s : Store) (k : String) (v : Hash)
    (k' : String) (h : k' ≠ k) :
    storeFind (storeHset s k v) k' = storeFind s k' := by
  unfold storeFind storeHset
  rw [List.find?_cons_of_neg _ (by simp [Ne.symm h]),
    find?_filter_ne s k k' h]

lemma mem_storeHset {s : Store} {k : String} {v : Hash}
    {k' : String} {h' : Hash} :
    (k', h') ∈ storeHset s k v ↔
      (k' = k ∧ h' = mergeHash ((storeFind s k).getD []) v) ∨
        ((k', h') ∈ s ∧ k' ≠ k) := by
  unfold storeHset
  rw [List.mem_cons, List.mem_filter]
  constructor
  · rintro (heq | ⟨hmem, hne⟩)
    · exact Or.inl ⟨congrArg Prod.fst heq, congrArg Prod.snd heq⟩
    · exact Or.inr ⟨hmem, by simpa using hne⟩
  · rintro (⟨h1, h2⟩ | ⟨hmem, hne⟩)
    · exact Or.inl (by rw [h1, h2])
    · exact Or.inr ⟨hmem, by simpa using hne⟩

lemma storeFind_mem {s : Store} {k : String} {h : Hash}
    (hf : storeFind s k = some h) : (k, h) ∈ s := by
  unfold storeFind at hf
  cases hfind : s.find? (fun e => e.1 == k) with
  | none => rw [hfind] at hf; cases hf
  | some e =>
    rw [hfind] at hf
    have hmem := List.mem_of_find?_eq_some hfind
    have hpred := List.find?_some hfind
    have he1 : e.1 = k := by simpa using hpred
    have he2 : e.2 = h := by simpa using hf
    have : e = (k, h) := Prod.ext he1 he2
    rwa [this] at hmem

/-!  Supporting lemmas about key parsing. -/

lemma splitCh_ne_nil (l : List Char) : splitCh l ≠ [] := by
  cases l with
  | nil => simp [splitCh]
  | cons c rest =>
    unfold splitCh
    by_cases hc : c = ':'
    · simp [hc]
    · simp only [if_neg hc]
      cases splitCh rest <;> simp

lemma splitCh_append_colon (l₁ l₂ : List Char) (h : ':' ∉ l₁) :
    splitCh (l₁ ++ ':' :: l₂) = l₁ :: splitCh l₂ := by
  induction l₁ with
  | nil => simp [splitCh]
  | cons c l₁ ih =>
    have hc : c ≠ ':' := fun hh => h (hh ▸ List.mem_cons_self c l₁)
    have h' : ':' ∉ l₁ := fun hh => h (List.mem_cons_of_mem c hh)
    rw [List.cons_append, splitCh, if_neg hc, ih h']

lemma joinColon_splitCh (l : List Char) : joinColon (splitCh l) = l := by
  induction l with
  | nil => rfl
  | cons c rest ih =>
    unfold splitCh
    by_cases hc : c = ':'
    · rw [if_pos hc]
      cases hs : splitCh rest with
      | nil => exact absurd hs (splitCh_ne_nil rest)
      | cons s ss =>
        rw [hs] at ih
        subst hc
        simpa [joinColon] using ih
    · rw [if_neg hc]
      cases hs : splitCh rest with
      | nil => exact absurd hs (splitCh_ne_nil rest)
      | cons s ss =>
        rw [hs] at ih
        cases ss with
        | nil => simpa [joinColon] using ih
        | cons s' ss' => simpa [joinColon] using ih

lemma usernameOfKey_getUserKey (u pfx : String) (h : ':' ∉ pfx.data) :
    usernameOfKey (getUserKey u pfx) = u := by
  unfold usernameOfKey getUserKey
  have hdata : ("status:" ++ pfx ++ ":" ++ u).data =
      "status".data ++ ':' :: (pfx.data ++ ':' :: u.data) := by
    simp [String.data_append]
  rw [hdata, splitCh_append_colon _ _ (by decide),
    splitCh_append_colon _ _ h]
  simp [joinColon_splitCh]

lemma jsTrim_ne_empty_of (msg : String) (h : jsTrim msg ≠ "") : msg ≠ "" := by
  intro he
  exact h (by rw [he]; rfl)

lemma updateUserStatus_result_writeFails (env : Env) (store : Store)
    (u p : String) (sd : StatusData) (h : env.writeFails = true) :
    (updateUserStatus env store u p sd).result =
      Except.error "setHash failed" := by
  simp [updateUserStatus, setHash, h]

/-- C5: for every message that is empty or consists only of whitespace, icon
resolution returns the default icon `circle` without ever invoking the
embedding step, and the update path likewise performs no embedding call and
puts icon `circle` in the written field map. -/
theorem claim_c5_whitespace_message_default_icon
    (env : Env) (msg pfx : String) (h : jsTrim msg = "") :
    searchBestIcon env msg pfx = ("circle", 0) ∧
    (∀ (store : Store) (u p : String) (sd : StatusData),
      sd.message = some msg →
      (updateUserStatus env store u p sd).embedCalls = 0 ∧
      hashGet (updateUserStatus env store u p sd).value "icon" =
        some "circle") := by
  have ha : searchBestIconTry env msg pfx = (Except.ok "circle", 0) := by
    unfold searchBestIconTry
    rw [if_pos (Or.inr h)]
  refine ⟨by unfold searchBestIcon; rw [ha], ?_⟩
  intro store u p sd hsd
  have hmsg : sd.message.getD "" = msg := by rw [hsd]; rfl
  have hguard : ¬(sd.message.getD "" ≠ "" ∧ jsTrim (sd.message.getD "") ≠ "") := by
    rw [hmsg, h]
    simp
  simp only [updateUserStatus]
  rw [if_neg hguard]
  rcases sd.longitude with _ | lon <;> rcases sd.latitude with _ | lat <;>
    exact ⟨rfl, rfl⟩

/-- C5 witness: the concrete whitespace-only message `"   "`. -/
theorem claim_c5_witness :
    jsTrim "   " = "" ∧
    searchBestIcon
      { embed := fun _ => Except.ok [1]
        ftSearch := fun _ _ => Except.ok { total := 0, documents := [] }
        writeFails := false, readFails := fun _ => false } "   " "a" =
      ("circle", 0) :=
  ⟨by decide,
    (claim_c5_whitespace_message_default_icon
      { embed := fun _ => Except.ok [1]
        ftSearch := fun _ _ => Except.ok { total := 0, documents := [] }
        writeFails := false, readFails := fun _ => false } "   " "a"
      (by decide)).1⟩

/-- C6: for every non-empty (non-whitespace) message, icon resolution
returns the default icon `circle` when the embedding step fails, when the
vector query fails, or when the index returns zero candidates; and every
error raised inside the `try` body is caught, yielding `circle` rather than
propagating to the caller. -/
theorem claim_c6_nonempty_message_degrades_to_default
    (env : Env) (msg pfx : String) (h : jsTrim msg ≠ "") :
    (∀ e, env.embed msg = Except.error e →
      searchBestIcon env msg pfx = ("circle", 1)) ∧
    (∀ emb e, env.embed msg = Except.ok emb →
      env.ftSearch (pfx ++ "_lucide_icon_index") emb = Except.error e →
      searchBestIcon env msg pfx = ("circle", 1)) ∧
    (∀ emb res, env.embed msg = Except.ok emb →
      env.ftSearch (pfx ++ "_lucide_icon_index") emb = Except.ok res →
      res.documents = [] →
      searchBestIcon env msg pfx = ("circle", 1)) ∧
    (∀ e n, searchBestIconTry env msg pfx = (Except.error e, n) →
      searchBestIcon env msg pfx = ("circle", n)) := by
  have hne : msg ≠ "" := jsTrim_ne_empty_of msg h
  have hguard : ¬(msg = "" ∨ jsTrim msg = "") := by
    rintro (h1 | h2)
    · exact hne h1
    · exact h h2
  refine ⟨?_, ?_, ?_, ?_⟩
  · intro e he
    unfold searchBestIcon searchBestIconTry generateEmbedding
    rw [if_neg hguard, he]
  · intro emb e hemb hsearch
    unfold searchBestIcon searchBestIconTry generateEmbedding vectorSearch
    rw [if_neg hguard, hemb]
    dsimp only
    rw [hsearch]
  · intro emb res hemb hsearch hdocs
    unfold searchBestIcon searchBestIconTry generateEmbedding vectorSearch
    rw [if_neg hguard, hemb]
    dsimp only
    rw [hsearch]
    dsimp only
    rw [hdocs]
  · intro e n htry
    unfold searchBestIcon
    rw [htry]

/-- C6 witness: a failing embedding model on the concrete message
`"coffee"`. -/
theorem claim_c6_witness :
    jsTrim "coffee" ≠ "" ∧
    searchBestIcon
      { embed := fun _ => Except.error "model load failure"
        ftSearch := fun _ _ => Except.error "idx: no such index"
        writeFails := false, readFails := fun _ => false } "coffee" "a" =
      ("circle", 1) :=
  ⟨by decide,
    (claim_c6_nonempty_message_degrades_to_default
      { embed := fun _ => Except.error "model load failure"
        ftSearch := fun _ _ => Except.error "idx: no such index"
        writeFails := false, readFails := fun _ => false } "coffee" "a"
      (by decide)).1 "model load failure" rfl⟩

/-- C3: an update request whose status is not one of the three allowed enum
values is rejected with a validation error before any side effect: the
store is unchanged, no field map is written, no icon resolution (hence no
embedding call) happens, nothing is broadcast, and a subsequent get of any
key returns the prior record unchanged. -/
theorem claim_c3_invalid_status_rejected_before_side_effects
    (env : Env) (store : Store) (u : String) (req : UpdateRequest)
    (h : (req.status.getD "") ∉ allowedStatuses) :
    (updateStatusHandler env store u req).ok = false ∧
    (updateStatusHandler env store u req).error.isSome = true ∧
    (updateStatusHandler env store u req).store = store ∧
    (updateStatusHandler env store u req).published = [] ∧
    (updateStatusHandler env store u req).written = none ∧
    (updateStatusHandler env store u req).embedCalls = 0 ∧
    ∀ k, getHash (updateStatusHandler env store u req).store k =
      getHash store k := by
  unfold updateStatusHandler
  by_cases h1 : req.myUsername.getD "" = "" ∨ req.status.getD "" = ""
  · rw [if_pos h1]
    exact ⟨rfl, rfl, rfl, rfl, rfl, rfl, fun k => rfl⟩
  · rw [if_neg h1, if_pos h]
    exact ⟨rfl, rfl, rfl, rfl, rfl, rfl, fun k => rfl⟩

/-- C3 witness: the spec's concrete example, `status = "yellow"`. -/
theorem claim_c3_witness :
    (({ myUsername := some "redisboard-a", status := some "yellow"
        message := some "hi", longitude := none,
        latitude := none } : UpdateRequest).status.getD "") ∉ allowedStatuses ∧
    (updateStatusHandler
      { embed := fun _ => Except.ok [1]
        ftSearch := fun _ _ => Except.ok { total := 0, documents := [] }
        writeFails := false, readFails := fun _ => false }
      [("status:a:redisboard-a", [("status", "green")])] "redisboard-a"
      { myUsername := some "redisboard-a", status := some "yellow"
        message := some "hi", longitude := none, latitude := none }).store =
      [("status:a:redisboard-a", [("status", "green")])] :=
  ⟨by decide,
    (claim_c3_invalid_status_rejected_before_side_effects
      { embed := fun _ => Except.ok [1]
        ftSearch := fun _ _ => Except.ok { total := 0, documents := [] }
        writeFails := false, readFails := fun _ => false }
      [("status:a:redisboard-a", [("status", "green")])] "redisboard-a"
      { myUsername := some "redisboard-a", status := some "yellow"
        message := some "hi", longitude := none, latitude := none }
      (by decide)).2.2.1⟩

/-- C4: the persistence write is ordered before the broadcast publish; when
persistence fails the handler reports failure, publishes nothing, and
leaves the store unchanged (all-or-nothing from the fanout's
perspective). -/
theorem claim_c4_failed_persist_publishes_nothing
    (env : Env) (store : Store) (u : String) (req : UpdateRequest)
    (h : env.writeFails = true) :
    (updateStatusHandler env store u req).ok = false ∧
    (updateStatusHandler env store u req).published = [] ∧
    (updateStatusHandler env store u req).store = store ∧
    (updateStatusHandler env store u req).error.isSome = true := by
  unfold updateStatusHandler
  by_cases h1 : req.myUsername.getD "" = "" ∨ req.status.getD "" = ""
  · rw [if_pos h1]
    exact ⟨rfl, rfl, rfl, rfl⟩
  · rw [if_neg h1]
    by_cases h2 : (req.status.getD "") ∉ allowedStatuses
    · rw [if_pos h2]
      exact ⟨rfl, rfl, rfl, rfl⟩
    · rw [if_neg h2]
      simp [updateUserStatus_result_writeFails _ _ _ _ _ h]

/-- C4 witness: a write failure on a concrete valid request. -/
theorem claim_c4_witness :
    ({ embed := fun _ => Except.ok [1]
       ftSearch := fun _ _ => Except.ok { total := 0, documents := [] }
       writeFails := true, readFails := fun _ => false } : Env).writeFails
      = true ∧
    (updateStatusHandler
      { embed := fun _ => Except.ok [1]
        ftSearch := fun _ _ => Except.ok { total := 0, documents := [] }
        writeFails := true, readFails := fun _ => false }
      [] "redisboard-a"
      { myUsername := some "redisboard-a", status := some "red"
        message := some "hi", longitude := none,
        latitude := none }).published = [] :=
  ⟨rfl,
    (claim_c4_failed_persist_publishes_nothing
      { embed := fun _ => Except.ok [1]
        ftSearch := fun _ _ => Except.ok { total := 0, documents := [] }
        writeFails := true, readFails := fun _ => false }
      [] "redisboard-a"
      { myUsername := some "redisboard-a", status := some "red"
        message := some "hi", longitude := none, latitude := none }
      rfl).2.1⟩

lemma allowed_ne_empty {s : String} (h : s ∈ allowedStatuses) : s ≠ "" := by
  simp only [allowedStatuses, List.mem_cons, List.not_mem_nil, or_false] at h
  rcases h with rfl | rfl | rfl <;> decide

lemma getHash_storeHset (s : Store) (k : String) (v : Hash) (hv : v ≠ []) :
    getHash (storeHset s k v) k =
      some (mergeHash ((storeFind s k).getD []) v) := by
  unfold getHash
  rw [storeFind_storeHset_self]
  have hne : (mergeHash ((storeFind s k).getD []) v).isEmpty = false := by
    unfold mergeHash
    cases v with
    | nil => exact absurd rfl hv
    | cons a l => rfl
  dsimp only
  rw [hne]
  rfl

/-- C7: an accepted update (valid status enum, present username) followed
by a get of the same tenant/username key returns a record whose `status`
and `message` fields equal the inputs exactly. -/
theorem claim_c7_update_get_roundtrip
    (env : Env) (store : Store) (u : String) (req : UpdateRequest)
    (m s : String) (hm : req.myUsername = some m) (hmne : m ≠ "")
    (hs : req.status = some s) (hsv : s ∈ allowedStatuses)
    (hw : env.writeFails = false) :
    ∃ hsh, getHash (updateStatusHandler env store u req).store
        (getUserKey m (extractPrefix u)) = some hsh ∧
      hashGet hsh "status" = some s ∧
      hashGet hsh "message" = some (req.message.getD "") := by
  have hcond1 : ¬(req.myUsername.getD "" = "" ∨ req.status.getD "" = "") := by
    rw [hm, hs]
    simp [hmne, allowed_ne_empty hsv]
  have hcond2 : ¬((req.status.getD "") ∉ allowedStatuses) := by
    rw [hs]
    exact not_not_intro hsv
  unfold updateStatusHandler
  rw [if_neg hcond1, if_neg hcond2, hm, hs]
  dsimp only [Option.getD]
  rcases req.longitude with _ | lon <;> rcases req.latitude with _ | lat <;>
  · simp only [updateUserStatus, setHash, hw, Bool.false_eq_true, if_false]
    refine ⟨_, getHash_storeHset _ _ _ (by simp), ?_, ?_⟩
    · exact hashGet_mergeHash_some _ rfl
    · exact hashGet_mergeHash_some _ rfl

/-- C7 witness: concrete accepted update with status `red` and message
`hi`. -/
theorem claim_c7_witness :
    ({ myUsername := some "redisboard-a", status := some "red"
       message := some "hi", longitude := none,
       latitude := none } : UpdateRequest).myUsername = some "redisboard-a" ∧
    ("red" : String) ∈ allowedStatuses ∧
    ∃ hsh, getHash (updateStatusHandler
        { embed := fun _ => Except.ok [1]
          ftSearch := fun _ _ => Except.ok { total := 0, documents := [] }
          writeFails := false, readFails := fun _ => false }
        [] "redisboard-a"
        { myUsername := some "redisboard-a", status := some "red"
          message := some "hi", longitude := none, latitude := none }).store
        (getUserKey "redisboard-a" (extractPrefix "redisboard-a")) =
        some hsh ∧
      hashGet hsh "status" = some "red" ∧
      hashGet hsh "message" = some "hi" :=
  ⟨rfl, by decide,
    claim_c7_update_get_roundtrip
      { embed := fun _ => Except.ok [1]
        ftSearch := fun _ _ => Except.ok { total := 0, documents := [] }
        writeFails := false, readFails := fun _ => false }
      [] "redisboard-a"
      { myUsername := some "redisboard-a", status := some "red"
        message := some "hi", longitude := none, latitude := none }
      "redisboard-a" "red" rfl (by decide) rfl (by decide) rfl⟩

/-- C9: the field map persisted by a write contains a `location` field iff
both longitude and latitude were supplied together — at the core update
level for arbitrary `statusData`, and at the request level for the field
map actually passed to the persistence write — and the field is the point
literal `POINT(<longitude> <latitude>)`, longitude first. -/
theorem claim_c9_location_iff_both_coords
    (env : Env) (store : Store) (u : String) :
    (∀ (u' p' : String) (sd : StatusData),
      ((hashGet (updateUserStatus env store u' p' sd).value "location").isSome
        = true ↔ sd.longitude.isSome = true ∧ sd.latitude.isSome = true) ∧
      (∀ lon lat, sd.longitude = some lon → sd.latitude = some lat →
        hashGet (updateUserStatus env store u' p' sd).value "location" =
          some ("POINT(" ++ toString lon ++ " " ++ toString lat ++ ")"))) ∧
    (∀ (req : UpdateRequest) (v : Hash),
      (updateStatusHandler env store u req).written = some v →
      ((hashGet v "location").isSome = true ↔
        req.longitude.isSome = true ∧ req.latitude.isSome = true) ∧
      (∀ lon lat, req.longitude = some lon → req.latitude = some lat →
        hashGet v "location" =
          some ("POINT(" ++ toString lon ++ " " ++ toString lat ++ ")"))) := by
  constructor
  · intro u' p' sd
    rcases hlon : sd.longitude with _ | lon <;>
      rcases hlat : sd.latitude with _ | lat <;>
      constructor <;>
      simp [updateUserStatus, hlon, hlat, hashGet]
  · intro req v hv
    revert hv
    unfold updateStatusHandler
    by_cases h1 : req.myUsername.getD "" = "" ∨ req.status.getD "" = ""
    · rw [if_pos h1]
      intro hv
      cases hv
    · rw [if_neg h1]
      by_cases h2 : (req.status.getD "") ∉ allowedStatuses
      · rw [if_pos h2]
        intro hv
        cases hv
      · rw [if_neg h2]
        rcases hlon : req.longitude with _ | lon <;>
          rcases hlat : req.latitude with _ | lat <;>
          dsimp only <;> split <;>
        · intro hv
          have hveq := Option.some.inj hv
          constructor
          · rw [← hveq]
            constructor <;> simp [updateUserStatus, hashGet]
          · intro lon' lat' hlon' hlat'
            first
            | exact Option.noConfusion hlon'
            | exact Option.noConfusion hlat'
            | (cases Option.some.inj hlon'
               cases Option.some.inj hlat'
               rw [← hveq]
               simp [updateUserStatus, hashGet])

/-- C9 witness: both coordinates supplied on a concrete request. -/
theorem claim_c9_witness :
    (updateStatusHandler
      { embed := fun _ => Except.ok [1]
        ftSearch := fun _ _ => Except.ok { total := 0, documents := [] }
        writeFails := false, readFails := fun _ => false }
      [] "redisboard-a"
      { myUsername := some "redisboard-a", status := some "green"
        message := none, longitude := some 34,
        latitude := some 32 }).written =
      some [("status", "green"), ("message", ""), ("icon", "circle"),
        ("location", "POINT(34 32)")] ∧
    hashGet [("status", "green"), ("message", ""), ("icon", "circle"),
        ("location", "POINT(34 32)")] "location" =
      some ("POINT(" ++ toString (34 : Rat) ++ " " ++ toString (32 : Rat)
        ++ ")") :=
  ⟨rfl,
    ((claim_c9_location_iff_both_coords
      { embed := fun _ => Except.ok [1]
        ftSearch := fun _ _ => Except.ok { total := 0, documents := [] }
        writeFails := false, readFails := fun _ => false }
      [] "redisboard-a").2
      { myUsername := some "redisboard-a", status := some "green"
        message := none, longitude := some 34, latitude := some 32 }
      [("status", "green"), ("message", ""), ("icon", "circle"),
        ("location", "POINT(34 32)")] rfl).2 34 32 rfl rfl⟩

/-- C8: a tenant that never initialized its namespace (no stored status
keys) or its spatial index gets an empty directory listing and zero
spatial results; neither operation surfaces an error to its caller. -/
theorem claim_c8_uninitialized_tenant_empty_results
    (env : Env) (geo : GeoEnv) (store : Store)
    (hkeys : ∀ e ∈ store, matchesGlob e.1 "status:*" = false)
    (hidx : geo.indexExists "status_index" = false) :
    getAllUsers env store = [] ∧ getUsersOnMap geo store = Except.ok [] := by
  constructor
  · unfold getAllUsers scanKeys
    rw [List.filter_eq_nil_iff.mpr (by simpa using hkeys)]
    rfl
  · unfold getUsersOnMap searchStatusesWithLocation
    rw [hidx]
    rfl

/-- C8 witness: the empty store and an absent index. -/
theorem claim_c8_witness :
    (getAllUsers
      { embed := fun _ => Except.ok [1]
        ftSearch := fun _ _ => Except.ok { total := 0, documents := [] }
        writeFails := false, readFails := fun _ => false } [] = []) ∧
    getUsersOnMap
      { indexExists := fun _ => false, withinBoundary := fun _ => true
        pointCoords := fun _ => some (34, 32) } [] = Except.ok [] :=
  claim_c8_uninitialized_tenant_empty_results
    { embed := fun _ => Except.ok [1]
      ftSearch := fun _ _ => Except.ok { total := 0, documents := [] }
      writeFails := false, readFails := fun _ => false }
    { indexExists := fun _ => false, withinBoundary := fun _ => true
      pointCoords := fun _ => some (34, 32) }
    [] (by simp) rfl

lemma jsOr_default_or_stored (v : Option String) (d : String) :
    jsOr v d = d ∨ v = some (jsOr v d) := by
  cases v with
  | none => exact Or.inl rfl
  | some s =>
    by_cases hs : s = ""
    · exact Or.inl (by simp [jsOr, hs])
    · exact Or.inr (by simp [jsOr, hs])

lemma getD_empty_or_stored (v : Option String) :
    v.getD "" = "" ∨ v = some (v.getD "") := by
  cases v with
  | none => exact Or.inl rfl
  | some s => exact Or.inr rfl

lemma scan_entry_mem (store : Store) (k : String) (h : Hash)
    (hfind : storeFind store k = some h)
    (hmatch : "status:".data.isPrefixOf k.data = true) :
    (k, h) ∈ store.filter fun e => matchesGlob e.1 "status:*" := by
  have hglob : matchesGlob k "status:*" = true := by
    rw [show matchesGlob k "status:*" =
      ("status:".data.isPrefixOf k.data) from rfl]
    exact hmatch
  exact List.mem_filter.mpr ⟨storeFind_mem hfind, hglob⟩

/-- C10: every element of the directory listing is fully populated, each of
its `status`/`message`/`icon` fields being either the stored field value or
its default (`green`/`''`/`circle`); for a key that reads successfully the
listing contains the element with exactly the stored-or-default value of
each individual field (a hash missing only some fields keeps the stored
values and defaults just the missing ones); a key whose per-key read fails
contributes the all-defaults element instead of an error; and the element's
username is the stored key with its first two colon-separated segments
removed, preserving colons inside usernames. -/
theorem claim_c10_listing_defaults_and_username
    (env : Env) (store : Store) :
    (∀ e ∈ getAllUsers env store, ∃ k v,
      (k, v) ∈ scanKeys env store "status:*" ∧
      e.username = usernameOfKey k ∧
      (e.status = "green" ∨ hashGet (v.getD []) "status" = some e.status) ∧
      (e.message = "" ∨ hashGet (v.getD []) "message" = some e.message) ∧
      (e.icon = "circle" ∨ hashGet (v.getD []) "icon" = some e.icon)) ∧
    (∀ k h, storeFind store k = some h →
      "status:".data.isPrefixOf k.data = true →
      env.readFails k = false → h ≠ [] →
      ({ username := usernameOfKey k
         status := jsOr (hashGet h "status") "green"
         message := (hashGet h "message").getD ""
         icon := jsOr (hashGet h "icon") "circle" } : UserView) ∈
        getAllUsers env store) ∧
    (∀ k h, storeFind store k = some h →
      "status:".data.isPrefixOf k.data = true →
      env.readFails k = true →
      ({ username := usernameOfKey k, status := "green", message := ""
         icon := "circle" } : UserView) ∈ getAllUsers env store) ∧
    (∀ (u p : String), ':' ∉ p.data →
      usernameOfKey (getUserKey u p) = u) := by
  refine ⟨?_, ?_, ?_, fun u p hp => usernameOfKey_getUserKey u p hp⟩
  · intro e he
    unfold getAllUsers at he
    obtain ⟨item, hitem, rfl⟩ := List.mem_map.mp he
    exact ⟨item.1, item.2, hitem, rfl, jsOr_default_or_stored _ _,
      getD_empty_or_stored _, jsOr_default_or_stored _ _⟩
  · intro k h hfind hmatch hrf hne
    have hget : getHash store k = some h := by
      unfold getHash
      rw [hfind]
      have : h.isEmpty = false := by
        cases h with
        | nil => exact absurd rfl hne
        | cons a l => rfl
      dsimp only
      rw [this]
      rfl
    unfold getAllUsers scanKeys
    refine List.mem_map.mpr ⟨(k, some h),
      List.mem_map.mpr ⟨(k, h), scan_entry_mem store k h hfind hmatch, ?_⟩,
      ?_⟩
    · rw [hrf, hget]
      rfl
    · rfl
  · intro k h hfind hmatch hrf
    unfold getAllUsers scanKeys
    refine List.mem_map.mpr ⟨(k, none),
      List.mem_map.mpr ⟨(k, h), scan_entry_mem store k h hfind hmatch, ?_⟩,
      ?_⟩
    · rw [hrf]
      rfl
    · rfl

/-- C10 witness: a stored hash that is missing only the `icon` field keeps
its stored `status` and `message` and gets the default icon, with a colon
preserved inside the username. -/
theorem claim_c10_witness :
    storeFind [("status:a:bob:x", [("status", "red"), ("message", "hi")])]
      "status:a:bob:x" = some [("status", "red"), ("message", "hi")] ∧
    ({ username := "bob:x", status := "red", message := "hi"
       icon := "circle" } : UserView) ∈
      getAllUsers sampleEnv
        [("status:a:bob:x", [("status", "red"), ("message", "hi")])] :=
  ⟨rfl,
    (claim_c10_listing_defaults_and_username sampleEnv
      [("status:a:bob:x", [("status", "red"), ("message", "hi")])]).2.1
      "status:a:bob:x" [("status", "red"), ("message", "hi")] rfl (by decide)
      rfl (by decide)⟩

/-- C1 counterexample: after an earlier write stored a location, an
accepted update supplying only status and message does NOT leave the stored
record without a location field — the `HSET` merge retains the old
`location` — and the record still appears in the `within`
(users-on-map) result afterwards, refuting the claim. -/
theorem claim_c1_counterexample :
    (updateStatusHandler sampleEnv c1PriorStore "redisboard-a"
      { myUsername := some "redisboard-a", status := some "red"
        message := none, longitude := none, latitude := none }).ok = true ∧
    (hashGet ((getHash c1AfterStore "status:a:redisboard-a").getD [])
      "location").isSome = true ∧
    getUsersOnMap sampleGeo c1AfterStore =
      Except.ok [{ username := "redisboard-a", status := "red", message := ""
                   icon := "circle", longitude := some 34,
                   latitude := some 32 }] :=
  ⟨rfl, rfl, rfl⟩

lemma updateUserStatus_result_ok (env : Env) (store : Store) (u p : String)
    (sd : StatusData) (h : env.writeFails = false) :
    (updateUserStatus env store u p sd).result =
      Except.ok (storeHset store (getUserKey u p)
        (updateUserStatus env store u p sd).value) := by
  simp [updateUserStatus, setHash, h]

lemma updateUserStatus_value_location_none (env : Env) (store : Store)
    (u p : String) (sd : StatusData) (hlon : sd.longitude = none) :
    hashGet (updateUserStatus env store u p sd).value "location" = none := by
  rcases hlat : sd.latitude with _ | lat <;>
    simp [updateUserStatus, hlon, hlat, hashGet]

lemma searchStatuses_username_ne (geo : GeoEnv) (store : Store)
    (idx : String) (recs : List MapRecord) (m : String)
    (hs : searchStatusesWithLocation geo store idx = Except.ok recs)
    (hm : ∀ k hsh, (k, hsh) ∈ store → usernameOfKey k = m →
      hashGet hsh "location" = none) :
    ∀ rec ∈ recs, rec.username ≠ m := by
  unfold searchStatusesWithLocation at hs
  by_cases hidx : geo.indexExists idx = true
  · rw [if_pos hidx] at hs
    intro rec hrec hune
    cases Except.ok.inj hs
    obtain ⟨e, he, rfl⟩ := List.mem_map.mp hrec
    obtain ⟨hmem, hcond⟩ := List.mem_filter.mp he
    have hloc : hashGet e.2 "location" = none := hm e.1 e.2 hmem hune
    rw [hloc] at hcond
    simp at hcond
  · rw [if_neg hidx] at hs
    cases hs

/-- C1 (amended): an accepted update that supplies only status and message
leaves any previously stored `location` field intact (the hash write
merges fields), so the original no-appearance guarantee holds only for
usernames none of whose stored records carry a location: if every stored
record for the username lacks a `location` field before the update, that
remains true after it, and the username never appears in `within`
(users-on-map) results. -/
theorem claim_c1_locationless_update_within_exclusion
    (env : Env) (geo : GeoEnv) (store : Store) (u : String)
    (req : UpdateRequest) (m : String)
    (hlon : req.longitude = none) (hlat : req.latitude = none)
    (hprior : ∀ k hsh, (k, hsh) ∈ store → usernameOfKey k = m →
      hashGet hsh "location" = none) :
    (∀ k hsh, (k, hsh) ∈ (updateStatusHandler env store u req).store →
      usernameOfKey k = m → hashGet hsh "location" = none) ∧
    (∀ recs, getUsersOnMap geo (updateStatusHandler env store u req).store =
      Except.ok recs → ∀ rec ∈ recs, rec.username ≠ m) := by
  have hstore : ∀ k hsh,
      (k, hsh) ∈ (updateStatusHandler env store u req).store →
      usernameOfKey k = m → hashGet hsh "location" = none := by
    unfold updateStatusHandler
    by_cases h1 : req.myUsername.getD "" = "" ∨ req.status.getD "" = ""
    · rw [if_pos h1]
      exact hprior
    · rw [if_neg h1]
      by_cases h2 : (req.status.getD "") ∉ allowedStatuses
      · rw [if_pos h2]
        exact hprior
      · rw [if_neg h2]
        rw [hlon, hlat]
        dsimp only
        intro k hsh hmem hname
        cases hwf : env.writeFails with
        | true =>
          rw [updateUserStatus_result_writeFails _ _ _ _ _ hwf] at hmem
          exact hprior k hsh hmem hname
        | false =>
          rw [updateUserStatus_result_ok _ _ _ _ _ hwf] at hmem
          dsimp only at hmem
          rcases mem_storeHset.mp hmem with ⟨rfl, rfl⟩ | ⟨hmem', _⟩
          · rw [hashGet_mergeHash_none _
              (updateUserStatus_value_location_none _ _ _ _ _ rfl)]
            cases hold : storeFind store
                (getUserKey (req.myUsername.getD "") (extractPrefix u)) with
            | none => rfl
            | some oldH => exact hprior _ oldH (storeFind_mem hold) hname
          · exact hprior k hsh hmem' hname
  refine ⟨hstore, ?_⟩
  intro recs hrecs rec hrec
  unfold getUsersOnMap at hrecs
  cases hsr : searchStatusesWithLocation geo
      (updateStatusHandler env store u req).store "status_index" with
  | ok sts =>
    rw [hsr] at hrecs
    cases Except.ok.inj hrecs
    exact searchStatuses_username_ne geo _ _ sts m hsr hstore rec
      (List.mem_filter.mp hrec).1
  | error e =>
    rw [hsr] at hrecs
    dsimp only at hrecs
    by_cases hie : containsSubstr e "no such index" = true
    · rw [if_pos hie] at hrecs
      cases Except.ok.inj hrecs
      cases hrec
    · rw [if_neg hie] at hrecs
      cases hrecs

/-- C1 witness: the empty prior store and a concrete status/message-only
request. -/
theorem claim_c1_witness :
    (∀ k hsh, (k, hsh) ∈ ([] : Store) →
      usernameOfKey k = "redisboard-a" → hashGet hsh "location" = none) ∧
    (∀ recs, getUsersOnMap sampleGeo
        (updateStatusHandler sampleEnv [] "redisboard-a"
          { myUsername := some "redisboard-a", status := some "red"
            message := none, longitude := none,
            latitude := none }).store = Except.ok recs →
      ∀ rec ∈ recs, rec.username ≠ "redisboard-a") :=
  ⟨by simp,
    (claim_c1_locationless_update_within_exclusion sampleEnv sampleGeo []
      "redisboard-a"
      { myUsername := some "redisboard-a", status := some "red"
        message := none, longitude := none, latitude := none }
      "redisboard-a" rfl rfl (by simp)).2⟩

/-- C2 counterexample: a request that supplies both coordinates together
with a changed status and message is published with the location-update
template, although the write did not change location only — it changed the
stored status from `green` to `red` and the message from `old` to `busy` —
refuting the claimed iff. -/
theorem claim_c2_counterexample :
    (updateStatusHandler sampleEnv
      [("status:a:redisboard-a",
        [("status", "green"), ("message", "old"), ("icon", "circle")])]
      "redisboard-a"
      { myUsername := some "redisboard-a", status := some "red"
        message := some "busy", longitude := some 34,
        latitude := some 32 }).published =
      ["User redisboard-a location updated"] ∧
    hashGet ((getHash (updateStatusHandler sampleEnv
        [("status:a:redisboard-a",
          [("status", "green"), ("message", "old"), ("icon", "circle")])]
        "redisboard-a"
        { myUsername := some "redisboard-a", status := some "red"
          message := some "busy", longitude := some 34,
          latitude := some 32 }).store "status:a:redisboard-a").getD [])
      "message" = some "busy" ∧
    hashGet ((getHash
        [("status:a:redisboard-a",
          [("status", "green"), ("message", "old"), ("icon", "circle")])]
        "status:a:redisboard-a").getD []) "message" = some "old" ∧
    hashGet ((getHash (updateStatusHandler sampleEnv
        [("status:a:redisboard-a",
          [("status", "green"), ("message", "old"), ("icon", "circle")])]
        "redisboard-a"
        { myUsername := some "redisboard-a", status := some "red"
          message := some "busy", longitude := some 34,
          latitude := some 32 }).store "status:a:redisboard-a").getD [])
      "status" = some "red" ∧
    hashGet ((getHash
        [("status:a:redisboard-a",
          [("status", "green"), ("message", "old"), ("icon", "circle")])]
        "status:a:redisboard-a").getD []) "status" = some "green" :=
  ⟨rfl, rfl, rfl, rfl, rfl⟩

/-- C2 (amended): for every accepted update, the published description uses
the location-update template iff the request supplied both longitude and
latitude — even when the same write also changed status or message — and
the status/message template otherwise; the two templates are distinct for
every username and status text. -/
theorem claim_c2_template_iff_coordinates
    (env : Env) (store : Store) (u : String) (req : UpdateRequest)
    (m s : String) (hm : req.myUsername = some m) (hmne : m ≠ "")
    (hs : req.status = some s) (hsv : s ∈ allowedStatuses)
    (hw : env.writeFails = false) :
    ((updateStatusHandler env store u req).published =
      [if req.longitude.isSome = true ∧ req.latitude.isSome = true then
        "User " ++ m ++ " location updated"
      else if req.message.getD "" ≠ "" then
        "User " ++ m ++ " status is " ++ getStatusText s ++ ": " ++
          req.message.getD ""
      else "User " ++ m ++ " status is " ++ getStatusText s]) ∧
    (∀ r : String, "User " ++ m ++ " location updated" ≠
      "User " ++ m ++ " status is " ++ r) := by
  constructor
  · have hcond1 : ¬(req.myUsername.getD "" = "" ∨ req.status.getD "" = "") := by
      rw [hm, hs]
      simp [hmne, allowed_ne_empty hsv]
    have hcond2 : ¬((req.status.getD "") ∉ allowedStatuses) := by
      rw [hs]
      exact not_not_intro hsv
    unfold updateStatusHandler
    rw [if_neg hcond1, if_neg hcond2, hm, hs]
    dsimp only [Option.getD]
    rcases req.longitude with _ | lon <;> rcases req.latitude with _ | lat <;>
    · simp only [updateUserStatus, setHash, hw, Bool.false_eq_true, if_false]
      try simp
  · intro r heq
    have hd := congrArg String.data heq
    simp only [String.data_append, List.append_assoc] at hd
    have hd2 := List.append_cancel_left hd
    have hd3 := List.append_cancel_left hd2
    have hx := congrArg (fun l => l[1]?) hd3
    simp only [] at hx
    rw [List.getElem?_append_left (by decide)] at hx
    exact absurd hx (by decide)

/-- C2 witness: both coordinates and a non-empty message supplied on an
accepted concrete request. -/
theorem claim_c2_witness :
    (updateStatusHandler sampleEnv [] "redisboard-a"
      { myUsername := some "redisboard-a", status := some "red"
        message := some "busy", longitude := some 34,
        latitude := some 32 }).published =
      [if (some (34 : Rat)).isSome = true ∧ (some (32 : Rat)).isSome = true
       then "User " ++ "redisboard-a" ++ " location updated"
       else if (some "busy").getD "" ≠ "" then
         "User " ++ "redisboard-a" ++ " status is " ++ getStatusText "red"
           ++ ": " ++ (some "busy").getD ""
       else "User " ++ "redisboard-a" ++ " status is " ++
         getStatusText "red"] :=
  (claim_c2_template_iff_coordinates sampleEnv [] "redisboard-a"
    { myUsername := some "redisboard-a", status := some "red"
      message := some "busy", longitude := some 34, latitude := some 32 }
    "redisboard-a" "red" rfl (by decide) rfl (by decide) rfl).1

end StatusBoard
